import Mathlib

/-!
Shallow embedding of RPiFanControl.py (class PWMFan).

Temperatures are exact rationals: the sensor delivers an integer number of
millidegrees and the program divides it by 1000.  Configuration values are
integers (the loader parses every recognized key with getint).  Side effects
(PWM writes, file writes, log prints, timer scheduling) are recorded in an
explicit effect list; uncaught Python exceptions are modelled by `Except`.
-/

/-- Python int() applied to an exact value: truncation toward zero. -/
def pyInt (q : ℚ) : ℤ := if 0 ≤ q then ⌊q⌋ else ⌈q⌉

/-- The reloadable scalar configuration held on the PWMFan instance
(fields set in PWMFan.__init__ and overwritten by _readConfig). -/
structure FanConfig where
  pwmChannel : ℤ
  mintemp : ℤ
  maxtemp : ℤ
  hysteresis : ℤ
  mindc : ℤ
  maxdc : ℤ
  sleeptime : ℤ
  writeFiles : Bool
  deriving DecidableEq

/-- Default keyword-argument values of PWMFan.__init__. -/
def defaultConfig : FanConfig :=
  { pwmChannel := 0, mintemp := 40, maxtemp := 60, hysteresis := 3,
    mindc := 20, maxdc := 100, sleeptime := 5, writeFiles := true }

/-- The §3 configuration constraints quantified over by the claims. -/
def ValidConfig (c : FanConfig) : Prop :=
  c.mintemp < c.maxtemp ∧ 0 ≤ c.hysteresis ∧ c.hysteresis < c.maxtemp - c.mintemp ∧
  0 ≤ c.mindc ∧ c.mindc ≤ c.maxdc ∧ c.maxdc ≤ 100

instance (c : FanConfig) : Decidable (ValidConfig c) := by
  unfold ValidConfig
  infer_instance

/-- The duty-cycle decision of PWMFan.updateFan (source lines 176-188):
given the configuration, the current hysteresis flag `self.hystOn` and the
temperature, return the duty cycle `dc` and the new value of `self.hystOn`. -/
def updateDecision (c : FanConfig) (hystOn : Bool) (temperature : ℚ) : ℤ × Bool :=
  if temperature < (c.mintemp : ℚ) ∨
      (temperature < (c.mintemp : ℚ) + (c.hysteresis : ℚ) ∧ hystOn = false) then
    (0, false)
  else if (c.maxtemp : ℚ) ≤ temperature then
    (100, true)
  else
    (pyInt ((temperature - (c.mintemp : ℚ)) * ((c.maxdc : ℚ) - (c.mindc : ℚ)) /
        ((c.maxtemp : ℚ) - (c.mintemp : ℚ)) + (c.mindc : ℚ)), true)

/-- Observable side effects of the controller. -/
inductive Effect where
  | pwmStart (dc : ℤ)
  | pwmChange (dc : ℤ)
  | pwmStop
  | log (msg : String)
  | writeTemp (value : ℚ)
  | writeDC (value : ℤ)
  | removeFile (path : String)
  | scheduleTimer
  deriving DecidableEq

/-- Uncaught Python exceptions that the modelled code can raise. -/
inductive PyError where
  | typeError
  | attributeError
  deriving DecidableEq

/-- Mutable instance state of PWMFan. `pwmAvailable` models
`self.pwm is not None`; `timerSet` models `self._timer is not None`. -/
structure FanState where
  config : FanConfig
  hystOn : Bool
  lasttemp : ℚ
  running : Bool
  pwmAvailable : Bool
  tempfile : Option String
  dcfile : Option String
  debug : Bool
  timerSet : Bool
  deriving DecidableEq

def Effect.isPwmStart : Effect → Bool
  | .pwmStart _ => true
  | _ => false

def Effect.isPwmChange : Effect → Bool
  | .pwmChange _ => true
  | _ => false

def Effect.isTempWrite : Effect → Bool
  | .writeTemp _ => true
  | _ => false

def Effect.isDCWrite : Effect → Bool
  | .writeDC _ => true
  | _ => false

/-- One section of the INI file as seen by _readConfig: each recognized key
is present with an integer (or boolean) value, or absent. -/
structure IniSection where
  minTempKey : Option ℤ
  maxTempKey : Option ℤ
  minDCKey : Option ℤ
  maxDCKey : Option ℤ
  hysteresisKey : Option ℤ
  sleepTimeKey : Option ℤ
  writeFilesKey : Option Bool
  deriving DecidableEq

/-- PWMFan._readConfig (source lines 129-143): `none` models a config file
without the RPiFanControl section (including a missing file); each
`conf.getint(key, fallback)` keeps the current in-memory value when the key
is absent. -/
def readConfig (src : Option IniSection) (c : FanConfig) : FanConfig :=
  match src with
  | none => c
  | some conf =>
    { c with
      mintemp := conf.minTempKey.getD c.mintemp,
      maxtemp := conf.maxTempKey.getD c.maxtemp,
      mindc := conf.minDCKey.getD c.mindc,
      maxdc := conf.maxDCKey.getD c.maxdc,
      hysteresis := conf.hysteresisKey.getD c.hysteresis,
      sleeptime := conf.sleepTimeKey.getD c.sleeptime,
      writeFiles := conf.writeFilesKey.getD c.writeFiles }

/-- PWMFan.__init__ (source lines 23-96): read the config, try to construct
the hardware PWM (`pwmOk` = construction succeeded; on failure a warning is
printed once and `self.pwm` stays None), start the fan at 100 % when the PWM
exists, and derive the two output paths from RUNTIME_DIRECTORY. -/
def initFan (defaults : FanConfig) (src : Option IniSection) (pwmOk : Bool)
    (runtimeDir : Option String) : FanState × List Effect :=
  let c := readConfig src defaults
  let configEffs := [Effect.log "Reading config"] ++
    (match src with
     | none => [Effect.log "No valid configuration found"]
     | some _ => [])
  let pwmEffs :=
    if pwmOk then [Effect.pwmStart 100]
    else [Effect.log "Hardware-PWM is not active"]
  let pathEffs := [Effect.log "RuntimeDirectory and file paths"]
  ({ config := c, hystOn := false, lasttemp := 0, running := false,
     pwmAvailable := pwmOk,
     tempfile := runtimeDir.map (fun r => r ++ "/temperature"),
     dcfile := runtimeDir.map (fun r => r ++ "/dutycycle"),
     debug := false, timerSet := false },
   configEffs ++ pwmEffs ++ pathEffs)

/-- PWMFan._runTimer (source lines 110-117): schedule the next updateFan
call if the controller is running. -/
def runTimer (s : FanState) : FanState × List Effect :=
  if s.running then ({ s with timerSet := true }, [Effect.scheduleTimer])
  else (s, [])

/-- PWMFan.start (source lines 98-108). -/
def startFan (s : FanState) (sleeptime : Option ℤ) : FanState × List Effect :=
  if s.running = false then
    let c1 := match sleeptime with
      | some v => { s.config with sleeptime := v }
      | none => s.config
    let s1 := { s with running := true, config := c1 }
    let rt := runTimer s1
    (rt.1, [Effect.log "Starting the fan controller"] ++ rt.2)
  else (s, [])

/-- The temperature read of PWMFan.updateFan (source lines 164-170):
`sensor` is the integer millidegree value, or `none` when opening the sensor
path raises FileNotFoundError, in which case maxtemp substitutes. -/
def readTemperature (c : FanConfig) (sensor : Option ℤ) : ℚ × List Effect :=
  match sensor with
  | some millideg => ((millideg : ℚ) / 1000, [])
  | none => ((c.maxtemp : ℚ), [Effect.log "temperaturePath not found, using max value"])

/-- One published-file write of PWMFan.updateFan (source lines 197-206):
`open(path, "w")` with path None raises TypeError (uncaught); an open that
raises FileNotFoundError (`ok = false`) is caught and only logged. -/
def writeReading (path : Option String) (ok : Bool) (eff : Effect) (failMsg : String) :
    Except PyError (List Effect) :=
  match path with
  | none => .error .typeError
  | some _ => .ok (if ok then [eff] else [Effect.log failMsg])

/-- PWMFan.updateFan (source lines 158-209): read the temperature, skip all
work when it equals `self.lasttemp`, otherwise store it, run the decision,
change the PWM duty cycle when the PWM exists, write the two published files
when enabled, and schedule the next tick. `tempWriteOk` and `dcWriteOk` say
whether opening each output file for writing succeeds. -/
def updateFan (s : FanState) (sensor : Option ℤ) (tempWriteOk dcWriteOk : Bool) :
    Except PyError (FanState × List Effect) :=
  let r := readTemperature s.config sensor
  let temperature := r.1
  if temperature ≠ s.lasttemp then
    let d := updateDecision s.config s.hystOn temperature
    let s1 := { s with lasttemp := temperature, hystOn := d.2 }
    let pwmEffs := if s.pwmAvailable then [Effect.pwmChange d.1] else []
    let dbgEffs := if s.debug then [Effect.log "temperature and dutycycle"] else []
    if s.config.writeFiles then
      match writeReading s.tempfile tempWriteOk (Effect.writeTemp temperature)
          "Cant write temperature file" with
      | .error e => .error e
      | .ok tEffs =>
        match writeReading s.dcfile dcWriteOk (Effect.writeDC d.1)
            "Cant write dc file" with
        | .error e => .error e
        | .ok dEffs =>
          let rt := runTimer s1
          .ok (rt.1, r.2 ++ pwmEffs ++ dbgEffs ++ tEffs ++ dEffs ++ rt.2)
    else
      let rt := runTimer s1
      .ok (rt.1, r.2 ++ pwmEffs ++ dbgEffs ++ rt.2)
  else
    let rt := runTimer s
    .ok (rt.1, r.2 ++ rt.2)

/-- PWMFan.stop (source lines 145-156): print, `self._timer.cancel()`
(AttributeError when `self._timer` is None), clear `self.running`,
`self.pwm.stop()` (AttributeError when `self.pwm` is None), then remove the
two published files; `os.path.exists(None)` raises TypeError. -/
def stopFan (s : FanState) (tempExists dcExists : Bool) :
    Except PyError (FanState × List Effect) :=
  if s.timerSet = false then .error .attributeError
  else if s.pwmAvailable = false then .error .attributeError
  else
    match s.tempfile with
    | none => .error .typeError
    | some tf =>
      match s.dcfile with
      | none => .error .typeError
      | some df =>
        let e1 := if tempExists then [Effect.removeFile tf] else []
        let e2 := if dcExists then [Effect.removeFile df] else []
        .ok ({ s with running := false },
          [Effect.log "Stopping the fan controller", Effect.pwmStop] ++ e1 ++ e2)

/-- Two consecutive updateFan ticks on the same sensor reading, with the
combined effect trace. -/
def tickTwice (s : FanState) (sensor : Option ℤ) (tempWriteOk dcWriteOk : Bool) :
    Except PyError (FanState × List Effect) :=
  match updateFan s sensor tempWriteOk dcWriteOk with
  | .error e => .error e
  | .ok (s1, e1) =>
    match updateFan s1 sensor tempWriteOk dcWriteOk with
    | .error e => .error e
    | .ok (s2, e2) => .ok (s2, e1 ++ e2)

/-- A valid configuration with minDutyCycle = 0 (defaults otherwise). -/
def c2cfg : FanConfig := { defaultConfig with mindc := 0 }

/-- A running controller state whose hardware PWM construction failed
(`self.pwm is None`) but that has started its timer and has its published
file paths configured. -/
def c4state : FanState :=
  { config := defaultConfig, hystOn := true, lasttemp := 50, running := true,
    pwmAvailable := false, tempfile := some "/run/RPiFanControl/temperature",
    dcfile := some "/run/RPiFanControl/dutycycle", debug := false, timerSet := true }

/-- A running controller state with publishing enabled but no output
location configured (RUNTIME_DIRECTORY unset, so both file paths are None). -/
def c6state : FanState :=
  { config := defaultConfig, hystOn := false, lasttemp := 0, running := true,
    pwmAvailable := true, tempfile := none, dcfile := none, debug := false,
    timerSet := true }

/-- The state constructed by PWMFan.__init__ with defaults, working PWM and
a runtime directory. -/
def c9state : FanState :=
  (initFan defaultConfig none true (some "/run/RPiFanControl")).1

/-- An INI section that contains only the SleepTime key. -/
def sleepOnly (v : ℤ) : IniSection :=
  { minTempKey := none, maxTempKey := none, minDCKey := none, maxDCKey := none,
    hysteresisKey := none, sleepTimeKey := some v, writeFilesKey := none }

/-- A non-publishing controller state used to instantiate hypotheses. -/
def c5state : FanState :=
  { config := { defaultConfig with writeFiles := false }, hystOn := false,
    lasttemp := 0, running := false, pwmAvailable := true, tempfile := none,
    dcfile := none, debug := false, timerSet := false }

/-- The out-of-the-box controller after construction with all defaults
(publishing enabled, RUNTIME_DIRECTORY unset so both output paths are None)
followed by start(): the state every default deployment runs in. -/
def c5defaultState : FanState :=
  (startFan (initFan defaultConfig none true none).1 none).1

/-- The state mutation a changed-temperature tick performs before
scheduling: store the reading and the new hysteresis flag. -/
def afterDecision (s : FanState) (t : ℚ) : FanState :=
  { s with lasttemp := t, hystOn := (updateDecision s.config s.hystOn t).2 }

/-- A running, fully configured controller state used to instantiate
hypotheses of the publish and no-op claims. -/
def c7state : FanState :=
  { config := defaultConfig, hystOn := false, lasttemp := 0, running := true,
    pwmAvailable := true, tempfile := some "/run/RPiFanControl/temperature",
    dcfile := some "/run/RPiFanControl/dutycycle", debug := false,
    timerSet := true }

example : updateDecision defaultConfig true 41 = (24, true) := by
  norm_num [updateDecision, pyInt, defaultConfig]
example : updateDecision defaultConfig false 42 = (0, false) := by
  norm_num [updateDecision, defaultConfig]
example : updateDecision defaultConfig false 61 = (100, true) := by
  norm_num [updateDecision, defaultConfig]
example : updateDecision defaultConfig true 39 = (0, false) := by
  norm_num [updateDecision, defaultConfig]

lemma pyInt_mono {a b : ℚ} (hab : a ≤ b) : pyInt a ≤ pyInt b := by
  unfold pyInt
  split_ifs with ha hb hb
  · exact Int.floor_mono hab
  · exact absurd (le_trans ha hab) hb
  · have h1 : ⌈a⌉ ≤ 0 := Int.ceil_le.mpr (by push_cast; exact le_of_lt (not_le.mp ha))
    have h2 : (0:ℤ) ≤ ⌊b⌋ := Int.floor_nonneg.mpr hb
    omega
  · exact Int.ceil_mono hab

lemma pyInt_nonneg {q : ℚ} (h : 0 ≤ q) : 0 ≤ pyInt q := by
  unfold pyInt
  rw [if_pos h]
  exact Int.floor_nonneg.mpr h

lemma one_le_pyInt {q : ℚ} (h : 1 ≤ q) : 1 ≤ pyInt q := by
  unfold pyInt
  rw [if_pos (le_trans zero_le_one h)]
  exact Int.le_floor.mpr (by exact_mod_cast h)

lemma pyInt_le_of_le {q : ℚ} {n : ℤ} (h0 : 0 ≤ q) (h : q ≤ (n : ℚ)) : pyInt q ≤ n := by
  unfold pyInt
  rw [if_pos h0]
  exact (Int.floor_mono h).trans_eq (Int.floor_intCast n)

lemma div_add_mono {a b k d dm : ℚ} (hab : a ≤ b) (hk : 0 ≤ k) (hd : 0 < d) :
    a * k / d + dm ≤ b * k / d + dm := by
  have h1 : a * k ≤ b * k := mul_le_mul_of_nonneg_right hab hk
  have h2 : a * k / d ≤ b * k / d := by
    rw [div_le_div_iff₀ hd hd]
    exact mul_le_mul_of_nonneg_right h1 hd.le
  linarith

/-- C1: for every configuration satisfying the §3 constraints, every previous
hysteresis state and every temperature, the duty-cycle decision returns
(0, false) below minTemp or inside the hysteresis band while off, (100, true)
from maxTemp upward, and otherwise the linear interpolation truncated toward
zero together with the new state true. -/
theorem claim1_decision_piecewise (c : FanConfig) (h : Bool) (t : ℚ)
    (hv : ValidConfig c) :
    ((t < (c.mintemp : ℚ) ∨ (t < (c.mintemp : ℚ) + (c.hysteresis : ℚ) ∧ h = false)) →
      updateDecision c h t = (0, false)) ∧
    (¬(t < (c.mintemp : ℚ) ∨ (t < (c.mintemp : ℚ) + (c.hysteresis : ℚ) ∧ h = false)) →
      (c.maxtemp : ℚ) ≤ t → updateDecision c h t = (100, true)) ∧
    (¬(t < (c.mintemp : ℚ) ∨ (t < (c.mintemp : ℚ) + (c.hysteresis : ℚ) ∧ h = false)) →
      t < (c.maxtemp : ℚ) →
      updateDecision c h t =
        (pyInt ((t - (c.mintemp : ℚ)) * ((c.maxdc : ℚ) - (c.mindc : ℚ)) /
            ((c.maxtemp : ℚ) - (c.mintemp : ℚ)) + (c.mindc : ℚ)), true)) := by
  refine ⟨fun hoff => ?_, fun hoff hmax => ?_, fun hoff hmax => ?_⟩
  · simp only [updateDecision]
    rw [if_pos hoff]
  · simp only [updateDecision]
    rw [if_neg hoff, if_pos hmax]
  · simp only [updateDecision]
    rw [if_neg hoff, if_neg (not_le.mpr hmax)]

/-- Witness for C1 at the §8 scenario point: configuration defaults,
previous state on, temperature 41 °C gives duty cycle 24. -/
theorem claim1_witness : updateDecision defaultConfig true 41 = (24, true) := by
  have h := (claim1_decision_piecewise defaultConfig true 41 (by decide)).2.2
    (by norm_num [defaultConfig]) (by norm_num [defaultConfig])
  rw [h]
  norm_num [pyInt, defaultConfig]

/-- C2 counterexample: with minDutyCycle = 0 the configuration satisfies the
§3 constraints, the state hystOn = true is reachable (reading 50 °C turns the
fan on), and a subsequent decision at exactly minTemp = 40 °C computes duty
cycle 0 while leaving the new hysteresis flag true — refuting the claimed
"hystOn = true iff duty cycle non-zero" invariant. -/
theorem claim2_counterexample :
    ValidConfig c2cfg ∧
    updateDecision c2cfg false 50 = (50, true) ∧
    updateDecision c2cfg true 40 = (0, true) := by
  refine ⟨by decide, ?_, ?_⟩
  · norm_num [updateDecision, pyInt, c2cfg, defaultConfig]
  · norm_num [updateDecision, pyInt, c2cfg, defaultConfig]

/-- C2 amended: when additionally 0 < minDutyCycle, the hysteresis flag
returned by a decision step is true exactly when the duty cycle computed by
that step is non-zero (with minDutyCycle = 0 the code can return hystOn =
true together with duty cycle 0). -/
theorem claim2_amended_invariant (c : FanConfig) (h : Bool) (t : ℚ)
    (hv : ValidConfig c) (hdc : 0 < c.mindc) :
    ((updateDecision c h t).2 = true ↔ (updateDecision c h t).1 ≠ 0) := by
  obtain ⟨hmM, hh0, hhlt, hdc0, hdcle, hdc100⟩ := hv
  unfold updateDecision
  split_ifs with h1 h2
  · simp
  · simp
  · refine ⟨fun _ => ?_, fun _ => rfl⟩
    show pyInt ((t - (c.mintemp : ℚ)) * ((c.maxdc : ℚ) - (c.mindc : ℚ)) /
        ((c.maxtemp : ℚ) - (c.mintemp : ℚ)) + (c.mindc : ℚ)) ≠ 0
    have hm1 : (c.mintemp : ℚ) ≤ t :=
      not_lt.mp (fun hlt => h1 (Or.inl hlt))
    have hmq : ((c.mintemp : ℚ)) < (c.maxtemp : ℚ) := by exact_mod_cast hmM
    have hdq : (0:ℚ) < (c.maxtemp : ℚ) - (c.mintemp : ℚ) := by linarith
    have hkq : (0:ℚ) ≤ (c.maxdc : ℚ) - (c.mindc : ℚ) := by
      have : ((c.mindc : ℚ)) ≤ (c.maxdc : ℚ) := by exact_mod_cast hdcle
      linarith
    have hq1 : (1:ℚ) ≤ (t - (c.mintemp : ℚ)) * ((c.maxdc : ℚ) - (c.mindc : ℚ)) /
        ((c.maxtemp : ℚ) - (c.mintemp : ℚ)) + (c.mindc : ℚ) := by
      have hnn : (0:ℚ) ≤ (t - (c.mintemp : ℚ)) * ((c.maxdc : ℚ) - (c.mindc : ℚ)) /
          ((c.maxtemp : ℚ) - (c.mintemp : ℚ)) :=
        div_nonneg (mul_nonneg (by linarith) hkq) hdq.le
      have h1m : (1:ℚ) ≤ (c.mindc : ℚ) := by exact_mod_cast hdc
      linarith
    have := one_le_pyInt hq1
    omega

/-- Witness for the amended C2 with the default configuration. -/
theorem claim2_amended_witness :
    (updateDecision defaultConfig true 41).2 = true ↔
      (updateDecision defaultConfig true 41).1 ≠ 0 :=
  claim2_amended_invariant defaultConfig true 41 (by decide) (by decide)

/-- C3: for a fixed configuration satisfying the §3 constraints and a fixed
previous hysteresis state, the computed duty cycle is non-decreasing in the
temperature over the whole domain. -/
theorem claim3_monotone (c : FanConfig) (h : Bool) (t1 t2 : ℚ)
    (hv : ValidConfig c) (hle : t1 ≤ t2) :
    (updateDecision c h t1).1 ≤ (updateDecision c h t2).1 := by
  obtain ⟨hmM, hh0, hhlt, hdc0, hdcle, hdc100⟩ := hv
  have hmq : ((c.mintemp : ℚ)) < (c.maxtemp : ℚ) := by exact_mod_cast hmM
  have hdq : (0:ℚ) < (c.maxtemp : ℚ) - (c.mintemp : ℚ) := by linarith
  have hkq : (0:ℚ) ≤ (c.maxdc : ℚ) - (c.mindc : ℚ) := by
    have : ((c.mindc : ℚ)) ≤ (c.maxdc : ℚ) := by exact_mod_cast hdcle
    linarith
  have hdmq : (0:ℚ) ≤ (c.mindc : ℚ) := by exact_mod_cast hdc0
  have h100 : ((c.maxdc : ℚ)) ≤ 100 := by exact_mod_cast hdc100
  simp only [updateDecision]
  by_cases o2 : t2 < (c.mintemp : ℚ) ∨ (t2 < (c.mintemp : ℚ) + (c.hysteresis : ℚ) ∧ h = false)
  · have o1 : t1 < (c.mintemp : ℚ) ∨ (t1 < (c.mintemp : ℚ) + (c.hysteresis : ℚ) ∧ h = false) := by
      rcases o2 with h2 | ⟨h2, hb⟩
      · exact Or.inl (lt_of_le_of_lt hle h2)
      · exact Or.inr ⟨lt_of_le_of_lt hle h2, hb⟩
    rw [if_pos o1, if_pos o2]
  · have hm2 : (c.mintemp : ℚ) ≤ t2 := not_lt.mp (fun hlt => o2 (Or.inl hlt))
    rw [if_neg o2]
    by_cases M2 : (c.maxtemp : ℚ) ≤ t2
    · rw [if_pos M2]
      by_cases o1 : t1 < (c.mintemp : ℚ) ∨ (t1 < (c.mintemp : ℚ) + (c.hysteresis : ℚ) ∧ h = false)
      · rw [if_pos o1]
        norm_num
      · rw [if_neg o1]
        by_cases M1 : (c.maxtemp : ℚ) ≤ t1
        · rw [if_pos M1]
        · rw [if_neg M1]
          have hm1 : (c.mintemp : ℚ) ≤ t1 := not_lt.mp (fun hlt => o1 (Or.inl hlt))
          show pyInt ((t1 - (c.mintemp : ℚ)) * ((c.maxdc : ℚ) - (c.mindc : ℚ)) /
              ((c.maxtemp : ℚ) - (c.mintemp : ℚ)) + (c.mindc : ℚ)) ≤ (100 : ℤ)
          have hq0 : (0:ℚ) ≤ (t1 - (c.mintemp : ℚ)) * ((c.maxdc : ℚ) - (c.mindc : ℚ)) /
              ((c.maxtemp : ℚ) - (c.mintemp : ℚ)) + (c.mindc : ℚ) := by
            have := div_nonneg (mul_nonneg (show (0:ℚ) ≤ t1 - (c.mintemp : ℚ) by linarith) hkq) hdq.le
            linarith
          have hub : (t1 - (c.mintemp : ℚ)) * ((c.maxdc : ℚ) - (c.mindc : ℚ)) /
              ((c.maxtemp : ℚ) - (c.mintemp : ℚ)) + (c.mindc : ℚ) ≤ (100 : ℚ) := by
            have hstep : (t1 - (c.mintemp : ℚ)) * ((c.maxdc : ℚ) - (c.mindc : ℚ)) /
                ((c.maxtemp : ℚ) - (c.mintemp : ℚ)) + (c.mindc : ℚ) ≤
                (((c.maxtemp : ℚ) - (c.mintemp : ℚ))) * ((c.maxdc : ℚ) - (c.mindc : ℚ)) /
                ((c.maxtemp : ℚ) - (c.mintemp : ℚ)) + (c.mindc : ℚ) :=
              div_add_mono (by linarith [not_le.mp M1]) hkq hdq
            have hcan : (((c.maxtemp : ℚ) - (c.mintemp : ℚ))) * ((c.maxdc : ℚ) - (c.mindc : ℚ)) /
                ((c.maxtemp : ℚ) - (c.mintemp : ℚ)) = (c.maxdc : ℚ) - (c.mindc : ℚ) :=
              mul_div_cancel_left₀ ((c.maxdc : ℚ) - (c.mindc : ℚ)) (ne_of_gt hdq)
            rw [hcan] at hstep
            linarith
          exact pyInt_le_of_le hq0 (by exact_mod_cast hub)
    · rw [if_neg M2]
      have hM1 : ¬ (c.maxtemp : ℚ) ≤ t1 := not_le.mpr (lt_of_le_of_lt hle (not_le.mp M2))
      by_cases o1 : t1 < (c.mintemp : ℚ) ∨ (t1 < (c.mintemp : ℚ) + (c.hysteresis : ℚ) ∧ h = false)
      · rw [if_pos o1]
        show (0 : ℤ) ≤ pyInt ((t2 - (c.mintemp : ℚ)) * ((c.maxdc : ℚ) - (c.mindc : ℚ)) /
            ((c.maxtemp : ℚ) - (c.mintemp : ℚ)) + (c.mindc : ℚ))
        apply pyInt_nonneg
        have := div_nonneg (mul_nonneg (show (0:ℚ) ≤ t2 - (c.mintemp : ℚ) by linarith) hkq) hdq.le
        linarith
      · rw [if_neg o1, if_neg hM1]
        show pyInt ((t1 - (c.mintemp : ℚ)) * ((c.maxdc : ℚ) - (c.mindc : ℚ)) /
            ((c.maxtemp : ℚ) - (c.mintemp : ℚ)) + (c.mindc : ℚ)) ≤
          pyInt ((t2 - (c.mintemp : ℚ)) * ((c.maxdc : ℚ) - (c.mindc : ℚ)) /
            ((c.maxtemp : ℚ) - (c.mintemp : ℚ)) + (c.mindc : ℚ))
        exact pyInt_mono (div_add_mono (by linarith) hkq hdq)

/-- Witness for C3 at the default configuration and two concrete
temperatures inside the interpolation band. -/
theorem claim3_witness :
    (updateDecision defaultConfig false 41).1 ≤ (updateDecision defaultConfig false 59).1 :=
  claim3_monotone defaultConfig false 41 59 (by decide) (by norm_num)

lemma runTimer_lasttemp (s : FanState) : (runTimer s).1.lasttemp = s.lasttemp := by
  unfold runTimer
  split_ifs <;> rfl

lemma runTimer_hystOn (s : FanState) : (runTimer s).1.hystOn = s.hystOn := by
  unfold runTimer
  split_ifs <;> rfl

/-- C4: with the PWM unavailable the periodic cycle still completes and
performs no PWM write, but stop() does NOT complete: it raises
AttributeError at `self.pwm.stop()` because the None guard used in updateFan
is missing in stop. -/
theorem claim4_pwm_failure :
    (∃ pr, updateFan c4state (some 45000) true true = .ok pr ∧
      pr.2.countP Effect.isPwmChange = 0) ∧
    stopFan c4state true true = .error .attributeError := by
  constructor
  · have hne : ((45000 : ℤ) : ℚ) / 1000 ≠ c4state.lasttemp := by
      norm_num [c4state]
    simp only [updateFan, readTemperature, writeReading]
    rw [if_pos hne]
    refine ⟨_, rfl, ?_⟩
    simp [c4state, runTimer, List.countP_append, List.countP_cons, Effect.isPwmChange]
  · rfl

/-- C6 counterexample: with publishing enabled and no output location
configured, a cycle with a changed reading raises an uncaught TypeError
(only FileNotFoundError is caught around the write), so the cycle does not
complete and no next tick is scheduled. -/
theorem claim6_counterexample :
    c6state.config.writeFiles = true ∧
    updateFan c6state (some 50000) true true = .error .typeError := by
  refine ⟨rfl, ?_⟩
  have hne : ((50000 : ℤ) : ℚ) / 1000 ≠ c6state.lasttemp := by
    norm_num [c6state]
  simp only [updateFan, readTemperature, writeReading]
  rw [if_pos hne]
  rfl

/-- C9 counterexample: the sentinel is 0, but a real first reading of
exactly 0 millidegrees gives temperature 0.0 = 0 = lasttemp, so the very
first cycle takes the skip branch and computes no decision. -/
theorem claim9_counterexample :
    c9state.lasttemp = 0 ∧
    updateFan c9state (some 0) true true = .ok (c9state, []) := by
  refine ⟨rfl, ?_⟩
  have heq : ¬ (((0 : ℤ) : ℚ) / 1000 ≠ c9state.lasttemp) := by
    simp only [c9state, initFan, readConfig]
    norm_num
  simp only [updateFan, readTemperature]
  rw [if_neg heq]
  rfl

/-- C8: reloading from a configuration source whose recognized section
contains only SleepTime changes only the poll interval; every other live
configuration field keeps its current in-memory value. -/
theorem claim8_reload_merge (c : FanConfig) (v : ℤ) :
    readConfig (some (sleepOnly v)) c = { c with sleeptime := v } := rfl

/-- C10: the constructor of PWMFan starts the PWM sink at 100 % duty cycle
whenever hardware PWM is available, before start() is ever called; start()
itself emits no PWM start. -/
theorem claim10_init_full_speed (d : FanConfig) (src : Option IniSection)
    (rtd : Option String) (s : FanState) (ns : Option ℤ) :
    ((initFan d src true rtd).2.filter Effect.isPwmStart) = [Effect.pwmStart 100] ∧
    (initFan d src true rtd).1.pwmAvailable = true ∧
    ((startFan s ns).2.filter Effect.isPwmStart) = [] := by
  refine ⟨?_, rfl, ?_⟩
  · cases src <;> rfl
  · unfold startFan runTimer
    split_ifs <;> rfl

lemma updateFan_ok (s : FanState) (sensor : Option ℤ) (tOk dOk : Bool)
    (hfiles : s.config.writeFiles = false ∨ (s.tempfile ≠ none ∧ s.dcfile ≠ none)) :
    ∃ pr, updateFan s sensor tOk dOk = .ok pr := by
  simp only [updateFan]
  by_cases hne : (readTemperature s.config sensor).1 ≠ s.lasttemp
  · rw [if_pos hne]
    rcases hfiles with hwf | ⟨htf, hdf⟩
    · have hnwf : ¬ (s.config.writeFiles = true) := by simp [hwf]
      rw [if_neg hnwf]
      exact ⟨_, rfl⟩
    · rcases Option.ne_none_iff_exists.mp htf with ⟨p, hp⟩
      rcases Option.ne_none_iff_exists.mp hdf with ⟨q, hq⟩
      rw [← hp, ← hq]
      by_cases hwf : s.config.writeFiles = true
      · rw [if_pos hwf]
        simp only [writeReading]
        exact ⟨_, rfl⟩
      · rw [if_neg hwf]
        exact ⟨_, rfl⟩
  · rw [if_neg hne]
    exact ⟨_, rfl⟩

lemma updateFan_skip (s : FanState) (m : ℤ) (tOk dOk : Bool)
    (heq : (m : ℚ) / 1000 = s.lasttemp) :
    updateFan s (some m) tOk dOk = .ok ((runTimer s).1, (runTimer s).2) := by
  have hne : ¬ ((m : ℚ) / 1000 ≠ s.lasttemp) := fun hc => hc heq
  simp only [updateFan, readTemperature]
  rw [if_neg hne, List.nil_append]

lemma updateFan_changed (s : FanState) (m : ℤ) (p q : String) (tOk dOk : Bool)
    (hwf : s.config.writeFiles = true) (htf : s.tempfile = some p)
    (hdf : s.dcfile = some q) (hne : (m : ℚ) / 1000 ≠ s.lasttemp) :
    updateFan s (some m) tOk dOk =
      .ok ((runTimer (afterDecision s ((m : ℚ) / 1000))).1,
        (if s.pwmAvailable = true then
            [Effect.pwmChange (updateDecision s.config s.hystOn ((m : ℚ) / 1000)).1]
          else []) ++
        (if s.debug = true then [Effect.log "temperature and dutycycle"] else []) ++
        (if tOk = true then [Effect.writeTemp ((m : ℚ) / 1000)]
          else [Effect.log "Cant write temperature file"]) ++
        (if dOk = true then
            [Effect.writeDC (updateDecision s.config s.hystOn ((m : ℚ) / 1000)).1]
          else [Effect.log "Cant write dc file"]) ++
        (runTimer (afterDecision s ((m : ℚ) / 1000))).2) := by
  simp only [updateFan, readTemperature, afterDecision]
  rw [if_pos hne, htf, hdf, if_pos hwf]
  simp only [writeReading, List.nil_append]

/-- C5 counterexample: in the reachable default deployment state
(publishing enabled, RUNTIME_DIRECTORY unset so both output paths are None,
started, first cycle), a cycle with the temperature source unavailable does
NOT continue non-fatally: the fail-safe maxTemp reading differs from the
sentinel, the changed branch runs, and open(None) raises an uncaught
TypeError before the next tick is scheduled. -/
theorem claim5_counterexample :
    c5defaultState.config.writeFiles = true ∧
    c5defaultState.tempfile = none ∧
    c5defaultState.running = true ∧
    updateFan c5defaultState none true true = .error .typeError := by
  refine ⟨rfl, rfl, rfl, ?_⟩
  have hstate : c5defaultState =
      ⟨defaultConfig, false, 0, true, true, none, none, false, true⟩ := rfl
  rw [hstate]
  have hne : ((defaultConfig.maxtemp : ℚ)) ≠ (0 : ℚ) := by
    norm_num [defaultConfig]
  simp only [updateFan, readTemperature]
  rw [if_pos hne]
  rfl

/-- C5 amended: when the temperature source is unavailable the reader
substitutes maxTemp and logs the condition; when it is available it returns
the integer reading divided by 1000; the sensor failure itself is caught and
the cycle completes for every state whose publishing is disabled or whose
output paths are configured — but when publishing is enabled with no output
location configured and the fail-safe reading differs from lastTemperature,
the cycle still aborts with the uncaught TypeError of the publish step. -/
theorem claim5_amended_failsafe :
    (∀ c : FanConfig, readTemperature c none =
      ((c.maxtemp : ℚ), [Effect.log "temperaturePath not found, using max value"])) ∧
    (∀ (c : FanConfig) (m : ℤ), readTemperature c (some m) = ((m : ℚ) / 1000, [])) ∧
    (∀ (s : FanState) (tOk dOk : Bool),
      s.config.writeFiles = false ∨ (s.tempfile ≠ none ∧ s.dcfile ≠ none) →
      ∃ pr, updateFan s none tOk dOk = .ok pr) ∧
    (∀ (s : FanState) (tOk dOk : Bool),
      s.config.writeFiles = true → s.tempfile = none →
      (s.config.maxtemp : ℚ) ≠ s.lasttemp →
      updateFan s none tOk dOk = .error .typeError) := by
  refine ⟨fun _ => rfl, fun _ _ => rfl,
    fun s tOk dOk h => updateFan_ok s none tOk dOk h, ?_⟩
  intro s tOk dOk hwf htf hne
  simp only [updateFan, readTemperature]
  rw [if_pos hne, htf, if_pos hwf]
  rfl

/-- Witness for the amended C5: defaults with sensor unavailable, a
concrete no-publishing state whose cycle completes, and the default state
whose cycle aborts. -/
theorem claim5_amended_witness :
    readTemperature defaultConfig none =
      ((defaultConfig.maxtemp : ℚ), [Effect.log "temperaturePath not found, using max value"]) ∧
    (∃ pr, updateFan c5state none true true = .ok pr) ∧
    updateFan c5defaultState none true true = .error .typeError :=
  ⟨claim5_amended_failsafe.1 defaultConfig,
   claim5_amended_failsafe.2.2.1 c5state true true (Or.inl rfl),
   claim5_amended_failsafe.2.2.2 c5defaultState true true rfl rfl
     (by norm_num [c5defaultState, startFan, initFan, readConfig, runTimer, defaultConfig])⟩

/-- C6 amended: when a configured output path cannot be opened for writing
(directory missing, FileNotFoundError) the failure is only logged, the cycle
completes and the next tick is scheduled; but when no output location is
configured (path None) and publishing is enabled, a changed reading makes
the cycle raise an uncaught TypeError and no next tick is scheduled. -/
theorem claim6_amended :
    (∀ (s : FanState) (m : ℤ) (p q : String),
      s.config.writeFiles = true → s.running = true →
      s.tempfile = some p → s.dcfile = some q →
      (m : ℚ) / 1000 ≠ s.lasttemp →
      ∃ pr, updateFan s (some m) false false = .ok pr ∧
        Effect.log "Cant write temperature file" ∈ pr.2 ∧
        Effect.log "Cant write dc file" ∈ pr.2 ∧
        Effect.scheduleTimer ∈ pr.2) ∧
    (∀ (s : FanState) (m : ℤ) (tOk dOk : Bool),
      s.config.writeFiles = true → s.tempfile = none →
      (m : ℚ) / 1000 ≠ s.lasttemp →
      updateFan s (some m) tOk dOk = .error .typeError) := by
  constructor
  · intro s m p q hwf hrun htf hdf hne
    rw [updateFan_changed s m p q false false hwf htf hdf hne]
    refine ⟨_, rfl, ?_, ?_, ?_⟩ <;>
      simp [runTimer, afterDecision, hrun]
  · intro s m tOk dOk hwf htf hne
    simp only [updateFan, readTemperature]
    rw [if_pos hne, htf, if_pos hwf]
    rfl

/-- Witness for the amended C6 on a concrete running state with both write
attempts failing. -/
theorem claim6_amended_witness :
    ∃ pr, updateFan c7state (some 50000) false false = .ok pr ∧
      Effect.log "Cant write temperature file" ∈ pr.2 ∧
      Effect.log "Cant write dc file" ∈ pr.2 ∧
      Effect.scheduleTimer ∈ pr.2 :=
  claim6_amended.1 c7state 50000 "/run/RPiFanControl/temperature"
    "/run/RPiFanControl/dutycycle" rfl rfl rfl rfl (by norm_num [c7state])

/-- C7: a tick whose reading equals lastTemperature does nothing except
scheduling the next tick — no PWM write, no file write, lastTemperature and
the hysteresis flag unchanged — and two consecutive ticks on one unchanged
reading perform exactly one PWM write and at most one write per published
file. -/
theorem claim7_unchanged_noop :
    (∀ (s : FanState) (m : ℤ) (tOk dOk : Bool),
      (m : ℚ) / 1000 = s.lasttemp →
      updateFan s (some m) tOk dOk = .ok (runTimer s) ∧
      (runTimer s).1.lasttemp = s.lasttemp ∧
      (runTimer s).1.hystOn = s.hystOn ∧
      (runTimer s).2.countP Effect.isPwmChange = 0 ∧
      (runTimer s).2.countP Effect.isTempWrite = 0 ∧
      (runTimer s).2.countP Effect.isDCWrite = 0) ∧
    (∀ (s : FanState) (m : ℤ) (p q : String) (tOk dOk : Bool),
      s.pwmAvailable = true → s.config.writeFiles = true →
      s.tempfile = some p → s.dcfile = some q →
      (m : ℚ) / 1000 ≠ s.lasttemp →
      ∃ pr, tickTwice s (some m) tOk dOk = .ok pr ∧
        pr.2.countP Effect.isPwmChange = 1 ∧
        pr.2.countP Effect.isTempWrite ≤ 1 ∧
        pr.2.countP Effect.isDCWrite ≤ 1) := by
  constructor
  · intro s m tOk dOk heq
    refine ⟨?_, runTimer_lasttemp s, runTimer_hystOn s, ?_, ?_, ?_⟩
    · rw [updateFan_skip s m tOk dOk heq, Prod.mk.eta]
    · unfold runTimer
      split_ifs <;> rfl
    · unfold runTimer
      split_ifs <;> rfl
    · unfold runTimer
      split_ifs <;> rfl
  · intro s m p q tOk dOk hpa hwf htf hdf hne
    have h1 := updateFan_changed s m p q tOk dOk hwf htf hdf hne
    have heq2 : (m : ℚ) / 1000 =
        ((runTimer (afterDecision s ((m : ℚ) / 1000))).1).lasttemp := by
      rw [runTimer_lasttemp]
      rfl
    have h2 := updateFan_skip ((runTimer (afterDecision s ((m : ℚ) / 1000))).1)
      m tOk dOk heq2
    simp only [tickTwice, h1, h2]
    refine ⟨_, rfl, ?_, ?_, ?_⟩ <;>
      · simp only [hpa, if_true, runTimer, afterDecision]
        split_ifs <;>
          simp [List.countP_append, List.countP_cons, Effect.isPwmChange,
            Effect.isTempWrite, Effect.isDCWrite]

/-- Witness for C7: two ticks of a concrete running state on the same
changed reading give one PWM write and at most one write per file. -/
theorem claim7_witness :
    ∃ pr, tickTwice c7state (some 50000) true true = .ok pr ∧
      pr.2.countP Effect.isPwmChange = 1 ∧
      pr.2.countP Effect.isTempWrite ≤ 1 ∧
      pr.2.countP Effect.isDCWrite ≤ 1 :=
  claim7_unchanged_noop.2 c7state 50000 "/run/RPiFanControl/temperature"
    "/run/RPiFanControl/dutycycle" true true rfl rfl rfl rfl
    (by norm_num [c7state])

/-- C9 amended: lastTemperature starts at the sentinel 0, and the first
cycle computes a decision for every first reading other than 0 millidegrees
(a reading of exactly 0 equals the sentinel and is skipped, refuting "any
real reading differs"). -/
theorem claim9_amended :
    (∀ (d : FanConfig) (src : Option IniSection) (pOk : Bool)
        (rtd : Option String), (initFan d src pOk rtd).1.lasttemp = 0) ∧
    (∀ (s : FanState) (m : ℤ) (tOk dOk : Bool),
      s.lasttemp = 0 → m ≠ 0 → s.config.writeFiles = false →
      ∃ pr, updateFan s (some m) tOk dOk = .ok pr ∧
        pr.1.lasttemp = (m : ℚ) / 1000 ∧
        pr.1.hystOn = (updateDecision s.config s.hystOn ((m : ℚ) / 1000)).2) := by
  constructor
  · intro d src pOk rtd
    rfl
  · intro s m tOk dOk hl hm hwf
    have hne : (m : ℚ) / 1000 ≠ s.lasttemp := by
      rw [hl]
      exact div_ne_zero (Int.cast_ne_zero.mpr hm) (by norm_num)
    have hnwf : ¬ (s.config.writeFiles = true) := by simp [hwf]
    simp only [updateFan, readTemperature]
    rw [if_pos hne, if_neg hnwf]
    refine ⟨_, rfl, ?_, ?_⟩
    · rw [runTimer_lasttemp]
    · rw [runTimer_hystOn]

/-- Witness for the amended C9: a freshly constructed non-publishing state
and the concrete first reading 50000 millidegrees. -/
theorem claim9_amended_witness :
    ∃ pr, updateFan c5state (some 50000) true true = .ok pr ∧
      pr.1.lasttemp = ((50000 : ℤ) : ℚ) / 1000 ∧
      pr.1.hystOn = (updateDecision c5state.config c5state.hystOn
        (((50000 : ℤ) : ℚ) / 1000)).2 :=
  claim9_amended.2 c5state 50000 true true rfl (by decide) rfl
